import Mathlib

/-!
Verification of the study-assistant backend: grading engine, progress
aggregator, quiz synthesizer fallbacks and the answer-synthesis guard.

The Python sources (backend/app/progress_tracker.py, quiz_generator.py,
rag_pipeline.py) are shallowly embedded below.  Python strings are Lean
`String`s, and the Python string operations used by the code
(`str.strip`, `str.lower`, `str.split`, the `in` substring test,
`str.split(sep)` and slicing) are implemented as structurally recursive
functions over the underlying character lists so that they evaluate by
kernel reduction.  Python dicts keyed by quiz id / question index /
topic are association lists that preserve insertion order, as Python
dicts do.  Python floats are idealised as exact rationals (every
arithmetic fact proved below only involves values on which float and
exact arithmetic agree).  File-backed persistence is explicit state
passing: an operation takes the stores and returns the stores it leaves
behind, so an operation that raises before writing returns its input
stores unchanged.
-/

/-! ## Python string primitives -/

/-- Drop leading whitespace characters of a character list. -/
def dropWS : List Char → List Char
  | [] => []
  | c :: rest => if c.isWhitespace then dropWS rest else c :: rest

/-- Python `str.strip()`: remove leading and trailing whitespace. -/
def pyTrim (s : String) : String := ⟨(dropWS (dropWS s.data.reverse).reverse)⟩

/-- Python `str.lower()` (ASCII case folding, which is all the grader relies on). -/
def pyLower (s : String) : String := ⟨s.data.map Char.toLower⟩

/-- Python `len` on a string: number of code points. -/
def pyLen (s : String) : Nat := s.data.length

/-- Python `s[:n]` slicing on strings: the first `n` code points. -/
def strTake (s : String) (n : Nat) : String := ⟨s.data.take n⟩

/-- Python `str.split()` with no separator: whitespace-delimited tokens,
empty tokens dropped. -/
def pyWords (s : String) : List String :=
  ((s.data.splitOnP Char.isWhitespace).map (fun l => String.mk l)).filter
    (fun w => w ≠ "")

/-- Does `needle` occur at the start of the list?  Returns the remainder
after the occurrence when it does. -/
def stripPre : List Char → List Char → Option (List Char)
  | [], l => some l
  | _ :: _, [] => none
  | a :: xs, b :: ys => if a = b then stripPre xs ys else none

/-- Substring search over character lists, for Python `needle in hay`. -/
def hasSubL (needle : List Char) : List Char → Bool
  | [] => (stripPre needle []).isSome
  | c :: rest => (stripPre needle (c :: rest)).isSome || hasSubL needle rest

/-- Python `needle in hay` substring membership on strings. -/
def hasSub (needle hay : String) : Bool := hasSubL needle.data hay.data

/-- Split on non-overlapping occurrences of a separator.  Fuel-based so
that it is structurally recursive; the wrapper supplies enough fuel for
the fuel never to run out on a non-empty separator. -/
def splitOnAuxL (sep : List Char) : Nat → List Char → List Char → List (List Char)
  | 0, l, acc => [(acc.reverse ++ l)]
  | _ + 1, [], acc => [acc.reverse]
  | fuel + 1, c :: rest, acc =>
    match stripPre sep (c :: rest) with
    | some rem => acc.reverse :: splitOnAuxL sep fuel rem []
    | none => splitOnAuxL sep fuel rest (c :: acc)

/-- Python `s.split(sep)` for a non-empty separator. -/
def pySplit (sep : String) (s : String) : List String :=
  (splitOnAuxL sep.data (s.data.length + 1) s.data []).map (fun l => String.mk l)

/-- Python `sep.join(parts)`. -/
def joinSep (sep : String) : List String → String
  | [] => ""
  | [s] => s
  | s :: rest => s ++ sep ++ joinSep sep rest

/-! ## Data model (progress_tracker.py, quiz_generator.py) -/

/-- A quiz question as produced by `QuizGenerator` and stored in
`quizzes.json`.  The `topic` key may be absent from the stored dict
(grading reads it with `question.get("topic", "General")`), hence
`Option`. -/
structure Question where
  question : String
  options : List String
  correct_answer : String
  question_type : String
  topic : Option String
deriving DecidableEq

/-- The per-question grading record built by `submit_quiz`. -/
structure Result where
  correct : Bool
  user_answer : String
  correct_answer : String
  question : String
  topic : String
deriving DecidableEq

/-- A stored quiz: the fields written by `save_quiz` plus the fields
`submit_quiz` fills in on submission. -/
structure Quiz where
  quiz_id : String
  created_at : String
  questions : List Question
  submitted : Bool
  score : Option ℚ
  answers : Option (List (Nat × String))
  results : Option (List (Nat × Result))
  submitted_at : Option String
deriving DecidableEq

/-- Per-topic accumulator inside `progress["topic_performance"]`. -/
structure TopicPerf where
  total : Nat
  correct : Nat
deriving DecidableEq

/-- One entry of `progress["recent_activity"]`. -/
structure Activity where
  quiz_id : String
  score : ℚ
  total_questions : Nat
  timestamp : String
deriving DecidableEq

/-- The progress aggregate stored in `progress.json`.  The lazy
key-initialisation in `_update_progress` is modelled by the fields
always being present, with `emptyProgress` as the initial value. -/
structure Progress where
  total_quizzes : Nat
  total_questions_attempted : Nat
  scores : List ℚ
  topic_performance : List (String × TopicPerf)
  recent_activity : List Activity
deriving DecidableEq

/-- A fresh progress store, as produced by the initialisation defaults. -/
def emptyProgress : Progress :=
  { total_quizzes := 0, total_questions_attempted := 0, scores := [],
    topic_performance := [], recent_activity := [] }

/-- The two persisted stores of `ProgressTracker`: `quizzes.json` (a
quiz-by-id mapping) and `progress.json`. -/
structure Store where
  quizzes : List (String × Quiz)
  progress : Progress
deriving DecidableEq

/-- The dictionary returned by `submit_quiz`. -/
structure SubmitResult where
  quiz_id : String
  score : ℚ
  total_questions : Nat
  correct_answers : Nat
  results : List (Nat × Result)
deriving DecidableEq

/-! ## Grading engine (`ProgressTracker.submit_quiz`) -/

/-- The key terms of a correct answer: every whitespace-delimited token
of the trimmed, lower-cased answer that is longer than 4 characters
(progress_tracker.py line 83). -/
def keyTermsOf (correct_answer : String) : List String :=
  (pyWords (pyLower (pyTrim correct_answer))).filter (fun w => pyLen w > 4)

/-- How many key terms of the correct answer occur as substrings of the
trimmed, lower-cased submitted answer (progress_tracker.py line 84). -/
def countMatches (correct_answer user_answer : String) : Nat :=
  (keyTermsOf correct_answer).countP
    (fun term => hasSub term (pyLower (pyTrim user_answer)))

/-- Grade one question (progress_tracker.py lines 74-85): exact
trimmed/lower-cased match for `mcq`, else the 50% keyword-match
heuristic `matches >= len(key_terms) * 0.5`. -/
def gradeQuestion (q : Question) (user_answer : String) : Bool :=
  if q.question_type = "mcq" then
    pyLower (pyTrim user_answer) == pyLower (pyTrim q.correct_answer)
  else
    decide ((countMatches q.correct_answer user_answer : ℚ) ≥
      ((keyTermsOf q.correct_answer).length : ℚ) * 0.5)

/-- Python `answers.get(idx, "")` over the submitted answer map. -/
def getAns : List (Nat × String) → Nat → String
  | [], _ => ""
  | (i, a) :: rest, k => if i = k then a else getAns rest k

/-- The grading loop of `submit_quiz` (lines 70-96): grade every
question by index and return the number of correct answers together
with the per-index result map. -/
def gradeQuestions (questions : List Question) (answers : List (Nat × String)) :
    Nat × List (Nat × Result) :=
  let results := questions.enum.map (fun p =>
    let ua := getAns answers p.1
    ((p.1, { correct := gradeQuestion p.2 ua
             user_answer := ua
             correct_answer := p.2.correct_answer
             question := p.2.question
             topic := p.2.topic.getD "General" }) : Nat × Result))
  (results.countP (fun r => r.2.correct), results)

/-- The overall score (line 98):
`(correct_count / len(questions)) * 100 if questions else 0`. -/
def computeScore (correct_count : Nat) (questions : List Question) : ℚ :=
  if questions.isEmpty then 0
  else (correct_count : ℚ) / (questions.length : ℚ) * 100

/-- Lookup in the quiz-by-id mapping. -/
def getQuiz : List (String × Quiz) → String → Option Quiz
  | [], _ => none
  | (k, v) :: rest, quiz_id => if k = quiz_id then some v else getQuiz rest quiz_id

/-- Update (or append) an entry of the quiz-by-id mapping; Python dict
assignment keeps the position of an existing key. -/
def setQuiz : List (String × Quiz) → String → Quiz → List (String × Quiz)
  | [], quiz_id, v => [(quiz_id, v)]
  | (k, v') :: rest, quiz_id, v =>
    if k = quiz_id then (quiz_id, v) :: rest else (k, v') :: setQuiz rest quiz_id v

/-! ## Progress aggregator (`ProgressTracker._update_progress`) -/

/-- Bump `topic_performance[topic]` with one graded question
(lines 143-152), inserting the topic at the end on first sight as
Python dict assignment does. -/
def bumpTopic : List (String × TopicPerf) → String → Bool → List (String × TopicPerf)
  | [], topic, c => [(topic, { total := 1, correct := if c then 1 else 0 })]
  | (t, p) :: rest, topic, c =>
    if t = topic then
      (t, { total := p.total + 1, correct := p.correct + (if c then 1 else 0) }) :: rest
    else (t, p) :: bumpTopic rest topic c

/-- The activity entry appended by `_update_progress` (lines 155-160).
The caller has always set `score` and `submitted_at`; the `getD`
defaults mirror the `.get(...)` fallbacks of the source. -/
def activityEntry (now : String) (quiz : Quiz) : Activity :=
  { quiz_id := quiz.quiz_id, score := quiz.score.getD 0,
    total_questions := quiz.questions.length,
    timestamp := quiz.submitted_at.getD now }

/-- Python `l[-n:]`: the last `n` elements. -/
def lastN (n : Nat) (l : List α) : List α := l.drop (l.length - n)

/-- `_update_progress` (lines 121-165): bump totals, append the score,
fold every graded result into the per-topic stats, append one activity
entry and keep only the last 20 activities. -/
def update_progress (now : String) (p : Progress) (quiz : Quiz) : Progress :=
  { total_quizzes := p.total_quizzes + 1,
    total_questions_attempted := p.total_questions_attempted + quiz.questions.length,
    scores := p.scores ++ [quiz.score.getD 0],
    topic_performance := (quiz.results.getD []).foldl
      (fun tp r => bumpTopic tp r.2.topic r.2.correct) p.topic_performance,
    recent_activity := lastN 20 (p.recent_activity ++ [activityEntry now quiz]) }

/-- The re-scored quiz record `submit_quiz` writes back over the stored
one (lines 101-105): marked submitted, with the freshly computed score,
the submitted answers, the per-question results and the submission
timestamp. -/
def submittedQuiz (now : String) (quiz : Quiz) (answers : List (Nat × String)) : Quiz :=
  { quiz with
    submitted := true
    score := some (computeScore (gradeQuestions quiz.questions answers).1 quiz.questions)
    answers := some answers
    results := some (gradeQuestions quiz.questions answers).2
    submitted_at := some now }

/-- `submit_quiz` (lines 57-119) as a state transformer on the two
stores: look the quiz up (raising `ValueError` — modelled as
`Except.error` with the stores untouched — when the id is unknown),
grade, overwrite the stored quiz, run `_update_progress` and return the
result dictionary. -/
def submit_quiz (now : String) (s : Store) (quiz_id : String)
    (answers : List (Nat × String)) : Except String SubmitResult × Store :=
  match getQuiz s.quizzes quiz_id with
  | none => (Except.error ("Quiz " ++ quiz_id ++ " not found"), s)
  | some quiz =>
    let quiz' := submittedQuiz now quiz answers
    (Except.ok { quiz_id := quiz_id
                 score := computeScore (gradeQuestions quiz.questions answers).1 quiz.questions
                 total_questions := quiz.questions.length
                 correct_answers := (gradeQuestions quiz.questions answers).1
                 results := (gradeQuestions quiz.questions answers).2 },
     { quizzes := setQuiz s.quizzes quiz_id quiz'
       progress := update_progress now s.progress quiz' })

/-- The total number of graded questions recorded across all topics of
the `topic_performance` map; the measure by which claim C9's per-topic
double-counting is stated. -/
def topicTotalSum (tp : List (String × TopicPerf)) : Nat :=
  (tp.map (fun t => t.2.total)).sum

/-! ## Weak areas (`ProgressTracker.get_progress`, lines 176-197) -/

/-- The accuracy a topic is judged by:
`(correct / total) * 100 if total > 0 else 0`. -/
def accuracyPct (correct total : Nat) : ℚ :=
  if total > 0 then (correct : ℚ) / (total : ℚ) * 100 else 0

/-- Round-half-to-even to an integer, the rounding Python's `round`
performs (idealised over exact rationals). -/
def roundHalfEven (x : ℚ) : ℤ :=
  let f := x.floor
  if x - f < 1 / 2 then f
  else if x - f > 1 / 2 then f + 1
  else if f % 2 = 0 then f else f + 1

/-- Python `round(x, 2)`. -/
def round2 (x : ℚ) : ℚ := (roundHalfEven (x * 100) : ℚ) / 100

/-- One entry of the `weak_areas` output list (lines 183-188). -/
structure WeakArea where
  topic : String
  accuracy : ℚ
  total_questions : Nat
  correct_answers : Nat
deriving DecidableEq

/-- The dictionary appended for a weak topic. -/
def mkWeakArea (topic : String) (p : TopicPerf) : WeakArea :=
  { topic := topic, accuracy := round2 (accuracyPct p.correct p.total),
    total_questions := p.total, correct_answers := p.correct }

/-- The unsorted weak-area list: every topic whose accuracy is strictly
below 70 (lines 180-188), in topic-map insertion order. -/
def weakListOf (tp : List (String × TopicPerf)) : List WeakArea :=
  tp.filterMap (fun t =>
    if accuracyPct t.2.correct t.2.total < 70 then some (mkWeakArea t.1 t.2)
    else none)

/-- The sort key of `weak_areas.sort(key=lambda x: x["accuracy"])`. -/
def weakLE (a b : WeakArea) : Prop := a.accuracy ≤ b.accuracy

instance : DecidableRel weakLE :=
  fun a b => inferInstanceAs (Decidable (a.accuracy ≤ b.accuracy))

instance : IsTotal WeakArea weakLE := ⟨fun a b => le_total a.accuracy b.accuracy⟩

instance : IsTrans WeakArea weakLE := ⟨fun _ _ _ h h' => le_trans h h'⟩

/-- The `weak_areas` list `get_progress` returns: sorted ascending by
accuracy (a stable sort, as Python's), capped to 10 entries
(lines 190-197). -/
def weakAreasOf (tp : List (String × TopicPerf)) : List WeakArea :=
  (List.insertionSort weakLE (weakListOf tp)).take 10

/-! ## Quiz synthesizer (`QuizGenerator`, quiz_generator.py) -/

/-- A retrieved document chunk (`page_content` plus metadata). -/
structure Chunk where
  page_content : String
  metadata : List (String × String)
deriving DecidableEq

/-- The dictionary `generate_quiz` returns. -/
structure QuizData where
  quiz_id : String
  questions : List Question
  created_at : String
deriving DecidableEq

/-- The context string of `generate_quiz` (line 47): the first 10
retrieved chunks joined by blank lines. -/
def quizContext (chunks : List Chunk) : String :=
  joinSep "\n\n" ((chunks.take 10).map (fun c => c.page_content))

/-- `generate_quiz` (lines 27-67).  The two LLM-backed per-type
generators `_generate_mcq` / `_generate_short_answer` are external
oracles here, passed as functions of the context and requested count;
the fresh uuid and timestamp are likewise parameters.  The dispatch,
the `mixed` split and the no-content failure are the source's. -/
def generate_quiz (chunks : List Chunk)
    (gen_mcq gen_sa : String → Nat → List Question)
    (question_type : String) (num_questions : Nat)
    (quiz_id created_at : String) : Except String QuizData :=
  if chunks.isEmpty then
    Except.error "No documents available. Please upload study materials first."
  else
    let context := quizContext chunks
    let questions :=
      if question_type = "mcq" then gen_mcq context num_questions
      else if question_type = "short_answer" then gen_sa context num_questions
      else
        let mcq_count := num_questions / 2
        let sa_count := num_questions - mcq_count
        gen_mcq context mcq_count ++ gen_sa context sa_count
    Except.ok { quiz_id := quiz_id, questions := questions,
                created_at := created_at }

/-- The fallback mcq question built from one sentence (lines 213-225). -/
def mkFallbackMCQ (sentence : String) : Question :=
  let best := if pyLen sentence > 100 then strTake sentence 100 else sentence
  { question := "What is mentioned about: " ++ strTake sentence 50 ++ "...?",
    options := [best, "Option B (incorrect)", "Option C (incorrect)",
                "Option D (incorrect)"],
    correct_answer := best, question_type := "mcq", topic := some "General" }

/-- `_fallback_mcq_generation` (lines 206-227): split the context on
`". "`, keep the first `2 * num_questions` sentences, walk the first
`num_questions` of those and build a question for each sentence longer
than 50 characters. -/
def fallback_mcq_generation (context : String) (num_questions : Nat) :
    List Question :=
  let sentences := (pySplit ". " context).take (num_questions * 2)
  let questions := (sentences.take num_questions).filterMap (fun sentence =>
    if pyLen sentence > 50 then some (mkFallbackMCQ sentence) else none)
  questions.take num_questions

/-- The fallback short-answer question built from one sentence
(lines 235-242). -/
def mkFallbackSA (sentence : String) : Question :=
  { question := "Explain: " ++ strTake sentence 80 ++ "...",
    options := [], correct_answer := sentence,
    question_type := "short_answer", topic := some "General" }

/-- `_fallback_short_answer_generation` (lines 229-244), same shape as
the mcq fallback. -/
def fallback_short_answer_generation (context : String) (num_questions : Nat) :
    List Question :=
  let sentences := (pySplit ". " context).take (num_questions * 2)
  let questions := (sentences.take num_questions).filterMap (fun sentence =>
    if pyLen sentence > 50 then some (mkFallbackSA sentence) else none)
  questions.take num_questions

/-- Modelled from the spec: what the specification sentence for the
fallback describes — one question per sentence of the context whose
length exceeds 50 characters, up to the requested count.  Kept separate
from the source embedding above so the two can be compared. -/
def fallbackSpecSentences (context : String) (num_questions : Nat) : List String :=
  ((pySplit ". " context).filter (fun s => pyLen s > 50)).take num_questions

/-! ## Answer synthesis (`RAGPipeline.answer_question`, rag_pipeline.py) -/

/-- One entry of the `sources` evidence list (lines 163-166). -/
structure SourceInfo where
  content : String
  metadata : List (String × String)
deriving DecidableEq

/-- The dictionary `answer_question` returns. -/
structure AnswerResult where
  answer : String
  sources : List SourceInfo
deriving DecidableEq

/-- The sentinel answer of the no-documents path (line 120). -/
def noDocsAnswer : String :=
  "No documents have been uploaded yet. Please upload study materials first."

/-- `answer_question` (lines 116-172).  The vector store is `none` when
no store is loaded, otherwise the indexed chunks; retrieval and the LLM
are external oracles passed as functions.  The no-documents guard, the
top-3 evidence cut and the 200-character preview are the source's. -/
def answer_question (store : Option (List Chunk))
    (retrieve : List Chunk → String → Nat → List Chunk)
    (llm : String → String) (question : String) (k : Nat) : AnswerResult :=
  match store with
  | none => { answer := noDocsAnswer, sources := [] }
  | some chunks =>
    let retrieved := retrieve chunks question k
    { answer := llm question,
      sources := (retrieved.take 3).map (fun d =>
        { content := strTake d.page_content 200 ++ "...",
          metadata := d.metadata }) }

/-! ## Concrete data used by witnesses and counterexamples -/

/-- A short-answer question with the spec's example correct answer. -/
def saQ : Question :=
  { question := "What does the mitochondria do?", options := [],
    correct_answer := "mitochondria produces energy",
    question_type := "short_answer", topic := some "Biology" }

/-- An mcq question with the spec's example correct answer. -/
def parisQ : Question :=
  { question := "Capital of France?",
    options := ["Paris", "London", "Berlin", "Rome"],
    correct_answer := "Paris", question_type := "mcq",
    topic := some "Geography" }

/-- A second mcq question for the demo quiz. -/
def mathQ : Question :=
  { question := "What is 2+2?", options := ["3", "4", "5", "6"],
    correct_answer := "4", question_type := "mcq", topic := some "Math" }

/-- A third mcq question for the demo quiz. -/
def skyQ : Question :=
  { question := "Colour of the sky?",
    options := ["Blue", "Green", "Red", "Yellow"],
    correct_answer := "Blue", question_type := "mcq", topic := some "Nature" }

/-- A fourth mcq question for the demo quiz. -/
def sunQ : Question :=
  { question := "The sun rises in the?",
    options := ["East", "West", "North", "South"],
    correct_answer := "East", question_type := "mcq", topic := some "Nature" }

/-- An unsubmitted 4-question demo quiz. -/
def demoQuiz : Quiz :=
  { quiz_id := "quiz-1", created_at := "2026-01-01T00:00:00",
    questions := [parisQ, mathQ, skyQ, sunQ], submitted := false,
    score := none, answers := none, results := none, submitted_at := none }

/-- An unsubmitted quiz with an empty question list. -/
def emptyQuiz : Quiz :=
  { quiz_id := "quiz-0", created_at := "2026-01-01T00:00:00",
    questions := [], submitted := false, score := none, answers := none,
    results := none, submitted_at := none }

/-- A store holding the two demo quizzes over a fresh progress store. -/
def demoStore : Store :=
  { quizzes := [("quiz-1", demoQuiz), ("quiz-0", emptyQuiz)],
    progress := emptyProgress }

/-- Demo answers: three of the four demo questions answered correctly. -/
def demoAns : List (Nat × String) :=
  [(0, "Paris"), (1, "4"), (2, "Blue"), (3, "West")]

/-- The context of the fallback counterexample: a short first sentence
followed by a 63-character second sentence. -/
def cexContext : String :=
  "Hi. The quick brown fox jumps over the lazy dog near the river bank"

/-- A demo chunk for the quiz-generation witness. -/
def demoChunk : Chunk :=
  { page_content := "Some study material text.", metadata := [] }

/-- A demo mcq generator oracle returning exactly the requested count. -/
def demoGenMCQ : String → Nat → List Question :=
  fun _ k => List.replicate k parisQ

/-- A demo short-answer generator oracle returning exactly the
requested count. -/
def demoGenSA : String → Nat → List Question :=
  fun _ k => List.replicate k saQ

/-- A demo topic-performance map with one weak topic. -/
def weakTP : List (String × TopicPerf) :=
  [("algebra", { total := 2, correct := 1 })]

/-! ## Helper lemmas -/

theorem half_ratio_iff (m n : Nat) :
    ((m : ℚ) ≥ (n : ℚ) * 0.5) ↔ n ≤ 2 * m := by
  rw [show (0.5 : ℚ) = 1 / 2 by norm_num, ge_iff_le, mul_one_div,
    div_le_iff₀ (by norm_num : (0 : ℚ) < 2)]
  constructor
  · intro h
    have h' : (n : ℚ) ≤ ((2 * m : Nat) : ℚ) := by push_cast; linarith
    exact_mod_cast h'
  · intro h
    have h' : (n : ℚ) ≤ ((2 * m : Nat) : ℚ) := by exact_mod_cast h
    push_cast at h'
    linarith

theorem getQuiz_setQuiz (l : List (String × Quiz)) (quiz_id : String) (v : Quiz) :
    getQuiz (setQuiz l quiz_id v) quiz_id = some v := by
  induction l with
  | nil => simp [getQuiz, setQuiz]
  | cons a rest ih =>
    obtain ⟨k, v'⟩ := a
    by_cases h : k = quiz_id
    · simp [setQuiz, getQuiz, h]
    · simp [setQuiz, getQuiz, h, ih]

theorem topicTotalSum_bump (tp : List (String × TopicPerf)) (t : String) (c : Bool) :
    topicTotalSum (bumpTopic tp t c) = topicTotalSum tp + 1 := by
  induction tp with
  | nil => simp [bumpTopic, topicTotalSum]
  | cons a rest ih =>
    obtain ⟨k, p⟩ := a
    by_cases h : k = t
    · simp [bumpTopic, h, topicTotalSum]
      omega
    · simp only [bumpTopic, if_neg h, topicTotalSum, List.map_cons, List.sum_cons] at ih ⊢
      omega

theorem topicTotalSum_fold (results : List (Nat × Result))
    (tp : List (String × TopicPerf)) :
    topicTotalSum (results.foldl (fun a r => bumpTopic a r.2.topic r.2.correct) tp) =
      topicTotalSum tp + results.length := by
  induction results generalizing tp with
  | nil => simp
  | cons r rest ih =>
    simp only [List.foldl_cons, List.length_cons, ih, topicTotalSum_bump]
    omega

theorem gradeQuestions_snd_length (qs : List Question) (ans : List (Nat × String)) :
    (gradeQuestions qs ans).2.length = qs.length := by
  simp [gradeQuestions]

theorem filterMap_if_gt (f : String → Question) (l : List String) :
    (l.filterMap (fun s => if pyLen s > 50 then some (f s) else none)) =
      (l.filter (fun s => pyLen s > 50)).map f := by
  induction l with
  | nil => rfl
  | cons a l ih =>
    by_cases h : pyLen a > 50
    · simp [List.filterMap_cons, List.filter_cons, h, ih]
    · simp [List.filterMap_cons, List.filter_cons, h, ih]

/-! ## Claim theorems -/

/-- Claim C1: for a question of type `short_answer`, grading extracts the
key terms as the whitespace-delimited tokens of the case-folded, trimmed
correct answer longer than 4 characters (`keyTermsOf`), counts how many
of them occur as substrings of the case-folded, trimmed submitted answer
(`countMatches`), and marks the question correct iff that count is at
least 50% of the key-term count; with zero key terms the question is
correct for any submission. -/
theorem short_answer_grading_spec (q : Question) (user_answer : String)
    (h : q.question_type = "short_answer") :
    (gradeQuestion q user_answer = true ↔
      (keyTermsOf q.correct_answer).length ≤
        2 * countMatches q.correct_answer user_answer) ∧
    (keyTermsOf q.correct_answer = [] → gradeQuestion q user_answer = true) := by
  have hm : ¬ q.question_type = "mcq" := by rw [h]; decide
  constructor
  · simp only [gradeQuestion, if_neg hm, decide_eq_true_eq]
    exact half_ratio_iff _ _
  · intro hk
    simp only [gradeQuestion, if_neg hm, decide_eq_true_eq, hk,
      List.length_nil, Nat.cast_zero, zero_mul, ge_iff_le]
    positivity

/-- Witness for C1 at the spec's own example: correct answer
"mitochondria produces energy" has the three key terms "mitochondria",
"produces", "energy", and a submission containing two of them is marked
correct. -/
theorem short_answer_grading_spec_witness :
    ((gradeQuestion saQ "The mitochondria produces power for the cell" = true ↔
      (keyTermsOf saQ.correct_answer).length ≤
        2 * countMatches saQ.correct_answer
          "The mitochondria produces power for the cell") ∧
     (keyTermsOf saQ.correct_answer = [] →
       gradeQuestion saQ "The mitochondria produces power for the cell" = true)) ∧
    keyTermsOf saQ.correct_answer = ["mitochondria", "produces", "energy"] ∧
    countMatches saQ.correct_answer
      "The mitochondria produces power for the cell" = 2 ∧
    gradeQuestion saQ "The mitochondria produces power for the cell" = true :=
  ⟨short_answer_grading_spec saQ "The mitochondria produces power for the cell" rfl,
   by decide, by decide,
   (short_answer_grading_spec saQ
      "The mitochondria produces power for the cell" rfl).1.mpr (by decide)⟩

/-- Claim C2: for a question of type `mcq`, grading marks the question
correct iff the submitted answer, trimmed and case-folded, is exactly
equal to the stored correct answer, trimmed and case-folded. -/
theorem mcq_grading_spec (q : Question) (user_answer : String)
    (h : q.question_type = "mcq") :
    gradeQuestion q user_answer = true ↔
      pyLower (pyTrim user_answer) = pyLower (pyTrim q.correct_answer) := by
  simp only [gradeQuestion, if_pos h, beq_iff_eq]

/-- Witness for C2 at the spec's own example: against stored answer
"Paris", the submission " paris " is marked correct and "Paris, France"
is not. -/
theorem mcq_grading_spec_witness :
    (gradeQuestion parisQ " paris " = true ↔
      pyLower (pyTrim " paris ") = pyLower (pyTrim parisQ.correct_answer)) ∧
    gradeQuestion parisQ " paris " = true ∧
    gradeQuestion parisQ "Paris, France" = false :=
  ⟨mcq_grading_spec parisQ " paris " rfl,
   (mcq_grading_spec parisQ " paris " rfl).mpr (by decide),
   by decide⟩

/-- Claim C8: when no vector store is loaded, `answer_question` returns
the fixed sentinel answer with an empty sources list, as an ordinary
successful return value (the function has no failure path), regardless
of the question, the requested `k`, or what the retrieval and LLM
oracles would do. -/
theorem no_documents_sentinel_spec
    (retrieve : List Chunk → String → Nat → List Chunk)
    (llm : String → String) (question : String) (k : Nat) :
    answer_question none retrieve llm question k =
      { answer := noDocsAnswer, sources := [] } := rfl

/-- Claim C10: submitting against a quiz id that is not in the quiz
store returns the `ValueError` and leaves both persisted stores exactly
as they were — the returned store is the input store. -/
theorem unknown_quiz_spec (now : String) (s : Store) (quiz_id : String)
    (answers : List (Nat × String)) (h : getQuiz s.quizzes quiz_id = none) :
    submit_quiz now s quiz_id answers =
      (Except.error ("Quiz " ++ quiz_id ++ " not found"), s) := by
  simp only [submit_quiz, h]

/-- Witness for C10: submitting an unknown id against the demo store
errors and returns the store unchanged. -/
theorem unknown_quiz_spec_witness :
    submit_quiz "2026-01-02T00:00:00" demoStore "missing" [] =
      (Except.error ("Quiz " ++ "missing" ++ " not found"), demoStore) :=
  unknown_quiz_spec "2026-01-02T00:00:00" demoStore "missing" [] (by decide)

/-- Claim C6: every progress update appends exactly one activity entry
and then keeps only the most recent 20: the resulting length is
`min (old + 1) 20` (hence at most 20), the result is a suffix of the
appended list (so evicted entries are the oldest, FIFO), and below the
bound nothing is evicted. -/
theorem recent_activity_bound_spec (now : String) (p : Progress) (quiz : Quiz) :
    ((update_progress now p quiz).recent_activity).length ≤ 20 ∧
    ((update_progress now p quiz).recent_activity).length =
      min (p.recent_activity.length + 1) 20 ∧
    (update_progress now p quiz).recent_activity <:+
      (p.recent_activity ++ [activityEntry now quiz]) ∧
    (p.recent_activity.length < 20 →
      (update_progress now p quiz).recent_activity =
        p.recent_activity ++ [activityEntry now quiz]) := by
  have hlen : (p.recent_activity ++ [activityEntry now quiz]).length =
      p.recent_activity.length + 1 := by simp
  refine ⟨?_, ?_, ?_, ?_⟩
  · simp only [update_progress, lastN, List.length_drop, hlen]
    omega
  · simp only [update_progress, lastN, List.length_drop, hlen]
    omega
  · simp only [update_progress, lastN]
    exact List.drop_suffix _ _
  · intro hlt
    simp only [update_progress, lastN, hlen]
    have h0 : p.recent_activity.length + 1 - 20 = 0 := by omega
    rw [h0, List.drop_zero]

/-- Witness for C6: updating a fresh progress store appends the one
activity entry and evicts nothing. -/
theorem recent_activity_bound_spec_witness :
    (update_progress "2026-01-03T00:00:00" emptyProgress demoQuiz).recent_activity =
      emptyProgress.recent_activity ++
        [activityEntry "2026-01-03T00:00:00" demoQuiz] :=
  (recent_activity_bound_spec "2026-01-03T00:00:00" emptyProgress demoQuiz).2.2.2
    (by decide)

/-- Claim C3: whenever the quiz id is found, submission succeeds and the
returned score is `correct_count / total_questions * 100`, with the
zero-question quiz scored 0 by the guard instead of a division error —
in particular submission never fails on an empty question list. -/
theorem score_formula_spec (now : String) (s : Store) (quiz_id : String)
    (answers : List (Nat × String)) (quiz : Quiz)
    (h : getQuiz s.quizzes quiz_id = some quiz) :
    ∃ r s', submit_quiz now s quiz_id answers = (Except.ok r, s') ∧
      r.total_questions = quiz.questions.length ∧
      r.score = (if quiz.questions.isEmpty then 0
        else (r.correct_answers : ℚ) / (quiz.questions.length : ℚ) * 100) ∧
      (quiz.questions = [] → r.score = 0) := by
  unfold submit_quiz
  rw [h]
  refine ⟨_, _, rfl, rfl, rfl, ?_⟩
  intro he
  simp [computeScore, he]

/-- Witness for C3: the demo store's 4-question quiz and its 0-question
quiz both submit successfully, and the score arithmetic gives 75 for 3
correct out of 4 and 0 for an empty quiz. -/
theorem score_formula_spec_witness :
    (∃ r s', submit_quiz "2026-01-02T00:00:00" demoStore "quiz-1" demoAns =
        (Except.ok r, s') ∧
      r.total_questions = demoQuiz.questions.length ∧
      r.score = (if demoQuiz.questions.isEmpty then 0
        else (r.correct_answers : ℚ) / (demoQuiz.questions.length : ℚ) * 100) ∧
      (demoQuiz.questions = [] → r.score = 0)) ∧
    (∃ r s', submit_quiz "2026-01-02T00:00:00" demoStore "quiz-0" demoAns =
        (Except.ok r, s') ∧
      r.total_questions = emptyQuiz.questions.length ∧
      r.score = (if emptyQuiz.questions.isEmpty then 0
        else (r.correct_answers : ℚ) / (emptyQuiz.questions.length : ℚ) * 100) ∧
      (emptyQuiz.questions = [] → r.score = 0)) ∧
    computeScore 3 demoQuiz.questions = 75 ∧
    computeScore 0 emptyQuiz.questions = 0 :=
  ⟨score_formula_spec "2026-01-02T00:00:00" demoStore "quiz-1" demoAns demoQuiz
      (by decide),
   score_formula_spec "2026-01-02T00:00:00" demoStore "quiz-0" demoAns emptyQuiz
      (by decide),
   by norm_num [computeScore, demoQuiz],
   by norm_num [computeScore, emptyQuiz]⟩

/-- Counterexample to C4 as stated: the claim reads the fallback as
building one question per sentence of the context longer than 50
characters, up to the requested count; but on a context whose first
sentence is short and whose second sentence is long, requesting one
question yields zero questions from both fallbacks even though one
qualifying sentence exists. -/
theorem fallback_shortfall_cex :
    (fallbackSpecSentences cexContext 1).length = 1 ∧
    (fallback_short_answer_generation cexContext 1).length = 0 ∧
    (fallback_mcq_generation cexContext 1).length = 0 := by decide

/-- Claim C4 (amended): the fallback generators are total and
deterministic — they split the context on ". ", look only at the first
`num_questions` sentences (of the first `2 * num_questions`), build one
question per such sentence longer than 50 characters, and hence return
at most `num_questions` questions, possibly fewer than requested even
when enough long sentences exist later in the context; they never
error. -/
theorem fallback_generation_spec (context : String) (n : Nat) :
    fallback_short_answer_generation context n =
      (((pySplit ". " context).take n).filter
        (fun s => pyLen s > 50)).map mkFallbackSA ∧
    (fallback_short_answer_generation context n).length ≤ n ∧
    fallback_mcq_generation context n =
      (((pySplit ". " context).take n).filter
        (fun s => pyLen s > 50)).map mkFallbackMCQ ∧
    (fallback_mcq_generation context n).length ≤ n := by
  have htt : ∀ (l : List String), (l.take (n * 2)).take n = l.take n := by
    intro l
    rw [List.take_take]
    congr 1
    omega
  have hsa : fallback_short_answer_generation context n =
      (((pySplit ". " context).take n).filter
        (fun s => pyLen s > 50)).map mkFallbackSA := by
    simp only [fallback_short_answer_generation]
    rw [htt, filterMap_if_gt]
    apply List.take_of_length_le
    rw [List.length_map]
    exact le_trans (List.length_filter_le _ _) (List.length_take_le _ _)
  have hmcq : fallback_mcq_generation context n =
      (((pySplit ". " context).take n).filter
        (fun s => pyLen s > 50)).map mkFallbackMCQ := by
    simp only [fallback_mcq_generation]
    rw [htt, filterMap_if_gt]
    apply List.take_of_length_le
    rw [List.length_map]
    exact le_trans (List.length_filter_le _ _) (List.length_take_le _ _)
  refine ⟨hsa, ?_, hmcq, ?_⟩
  · rw [hsa, List.length_map]
    exact le_trans (List.length_filter_le _ _) (List.length_take_le _ _)
  · rw [hmcq, List.length_map]
    exact le_trans (List.length_filter_le _ _) (List.length_take_le _ _)

/-- Claim C7: generating a `mixed` quiz splits the requested count into
`mcq_count = num_questions / 2` and
`short_answer_count = num_questions - mcq_count`, generates the two
sub-batches independently from the same context, and concatenates them
with the mcq questions first; when the generators return the requested
counts the quiz has exactly `num_questions` questions. -/
theorem mixed_split_spec (chunks : List Chunk)
    (gen_mcq gen_sa : String → Nat → List Question) (n : Nat)
    (quiz_id created_at : String) (hc : chunks ≠ [])
    (hm : ∀ ctx k, (gen_mcq ctx k).length = k)
    (hs : ∀ ctx k, (gen_sa ctx k).length = k) :
    ∃ qd, generate_quiz chunks gen_mcq gen_sa "mixed" n quiz_id created_at =
        Except.ok qd ∧
      qd.questions =
        gen_mcq (quizContext chunks) (n / 2) ++
          gen_sa (quizContext chunks) (n - n / 2) ∧
      qd.questions.length = n ∧
      qd.questions.take (n / 2) = gen_mcq (quizContext chunks) (n / 2) ∧
      (gen_mcq (quizContext chunks) (n / 2)).length = n / 2 ∧
      (gen_sa (quizContext chunks) (n - n / 2)).length = n - n / 2 := by
  have hne : chunks.isEmpty = false := by
    cases chunks with
    | nil => exact absurd rfl hc
    | cons a l => rfl
  have h1 : ¬ (("mixed" : String) = "mcq") := by decide
  have h2 : ¬ (("mixed" : String) = "short_answer") := by decide
  refine ⟨{ quiz_id := quiz_id
            questions := gen_mcq (quizContext chunks) (n / 2) ++
              gen_sa (quizContext chunks) (n - n / 2)
            created_at := created_at }, ?_, rfl, ?_, ?_, hm _ _, hs _ _⟩
  · unfold generate_quiz
    rw [hne]
    simp only [Bool.false_eq_true, if_false, if_neg h1, if_neg h2]
  · simp only [List.length_append, hm, hs]
    omega
  · exact List.take_left' (hm _ _)

/-- Witness for C7: with oracles that return the requested count, 5
mixed questions split into 2 mcq followed by 3 short-answer. -/
theorem mixed_split_spec_witness :
    (∃ qd, generate_quiz [demoChunk] demoGenMCQ demoGenSA "mixed" 5
        "quiz-7" "2026-01-01T00:00:00" = Except.ok qd ∧
      qd.questions =
        demoGenMCQ (quizContext [demoChunk]) (5 / 2) ++
          demoGenSA (quizContext [demoChunk]) (5 - 5 / 2) ∧
      qd.questions.length = 5 ∧
      qd.questions.take (5 / 2) = demoGenMCQ (quizContext [demoChunk]) (5 / 2) ∧
      (demoGenMCQ (quizContext [demoChunk]) (5 / 2)).length = 5 / 2 ∧
      (demoGenSA (quizContext [demoChunk]) (5 - 5 / 2)).length = 5 - 5 / 2) ∧
    (5 : Nat) / 2 = 2 ∧ (5 : Nat) - 5 / 2 = 3 :=
  ⟨mixed_split_spec [demoChunk] demoGenMCQ demoGenSA 5 "quiz-7"
      "2026-01-01T00:00:00" (by simp)
      (fun _ k => List.length_replicate k parisQ)
      (fun _ k => List.length_replicate k saQ),
   by decide, by decide⟩

/-- Claim C5: the weak-areas list has at most 10 entries, every entry is
a topic whose correct/total accuracy is strictly below 70% (so no topic
with 70% or more ever appears), the list is sorted ascending by its
accuracy key (worst first), and — whenever the cap is not exceeded —
every stored topic strictly below 70% appears in it. -/
theorem weak_areas_spec (tp : List (String × TopicPerf)) :
    (weakAreasOf tp).length ≤ 10 ∧
    (∀ w ∈ weakAreasOf tp, accuracyPct w.correct_answers w.total_questions < 70) ∧
    List.Sorted weakLE (weakAreasOf tp) ∧
    ((weakListOf tp).length ≤ 10 → ∀ t p, (t, p) ∈ tp →
      accuracyPct p.correct p.total < 70 → mkWeakArea t p ∈ weakAreasOf tp) := by
  refine ⟨?_, ?_, ?_, ?_⟩
  · rw [weakAreasOf, List.length_take]
    exact min_le_left _ _
  · intro w hw
    have hw1 : w ∈ List.insertionSort weakLE (weakListOf tp) :=
      List.mem_of_mem_take hw
    have hw2 : w ∈ weakListOf tp :=
      (List.perm_insertionSort weakLE (weakListOf tp)).mem_iff.mp hw1
    obtain ⟨⟨t, p⟩, htp, heq⟩ := List.mem_filterMap.mp hw2
    by_cases hacc : accuracyPct p.correct p.total < 70
    · rw [if_pos hacc] at heq
      have hw3 : mkWeakArea t p = w := by injection heq
      subst hw3
      exact hacc
    · rw [if_neg hacc] at heq
      exact absurd heq (by simp)
  · rw [weakAreasOf]
    exact List.Pairwise.sublist (List.take_sublist _ _)
      (List.sorted_insertionSort weakLE (weakListOf tp))
  · intro hlen t p htp hacc
    have hmem : mkWeakArea t p ∈ weakListOf tp :=
      List.mem_filterMap.mpr ⟨(t, p), htp, by rw [if_pos hacc]⟩
    have hmem2 : mkWeakArea t p ∈ List.insertionSort weakLE (weakListOf tp) :=
      (List.perm_insertionSort weakLE (weakListOf tp)).mem_iff.mpr hmem
    rw [weakAreasOf, List.take_of_length_le]
    · exact hmem2
    · rw [(List.perm_insertionSort weakLE (weakListOf tp)).length_eq]
      exact hlen

/-- Witness for C5: a topic at 50% accuracy appears in the weak-areas
list of the demo topic map, which is within the cap and sorted. -/
theorem weak_areas_spec_witness :
    mkWeakArea "algebra" { total := 2, correct := 1 } ∈ weakAreasOf weakTP ∧
    (weakAreasOf weakTP).length ≤ 10 ∧
    List.Sorted weakLE (weakAreasOf weakTP) := by
  refine ⟨(weak_areas_spec weakTP).2.2.2 ?_ "algebra"
      { total := 2, correct := 1 } ?_ ?_,
    (weak_areas_spec weakTP).1, (weak_areas_spec weakTP).2.2.1⟩
  · norm_num [weakListOf, weakTP, accuracyPct, List.filterMap_cons,
      List.filterMap_nil]
  · simp [weakTP]
  · norm_num [accuracyPct]

theorem submit_quiz_found (now : String) (s : Store) (quiz_id : String)
    (answers : List (Nat × String)) (quiz : Quiz)
    (h : getQuiz s.quizzes quiz_id = some quiz) :
    submit_quiz now s quiz_id answers =
      (Except.ok { quiz_id := quiz_id
                   score := computeScore (gradeQuestions quiz.questions answers).1
                     quiz.questions
                   total_questions := quiz.questions.length
                   correct_answers := (gradeQuestions quiz.questions answers).1
                   results := (gradeQuestions quiz.questions answers).2 },
       { quizzes := setQuiz s.quizzes quiz_id (submittedQuiz now quiz answers)
         progress := update_progress now s.progress (submittedQuiz now quiz answers) }) := by
  unfold submit_quiz
  rw [h]

/-- Claim C9: a second submit of an already-submitted quiz is not
rejected: it succeeds, re-scores to the same score, overwrites the
stored score, answers, results and submission timestamp, and runs the
progress update a second time, double-counting total_quizzes,
total_questions_attempted, the score history and the per-topic
totals. -/
theorem resubmission_spec (now1 now2 : String) (s : Store) (quiz_id : String)
    (answers : List (Nat × String)) (quiz : Quiz)
    (h : getQuiz s.quizzes quiz_id = some quiz) :
    ∃ r1 s1 r2 s2,
      submit_quiz now1 s quiz_id answers = (Except.ok r1, s1) ∧
      submit_quiz now2 s1 quiz_id answers = (Except.ok r2, s2) ∧
      r2.score = r1.score ∧ r2.results = r1.results ∧
      (∃ quiz2, getQuiz s2.quizzes quiz_id = some quiz2 ∧
        quiz2.submitted = true ∧ quiz2.score = some r2.score ∧
        quiz2.answers = some answers ∧ quiz2.results = some r2.results ∧
        quiz2.submitted_at = some now2) ∧
      s2.progress.total_quizzes = s.progress.total_quizzes + 2 ∧
      s2.progress.total_questions_attempted =
        s.progress.total_questions_attempted + 2 * quiz.questions.length ∧
      s2.progress.scores = s.progress.scores ++ [r1.score, r2.score] ∧
      topicTotalSum s2.progress.topic_performance =
        topicTotalSum s.progress.topic_performance + 2 * quiz.questions.length := by
  have e1 := submit_quiz_found now1 s quiz_id answers quiz h
  have h2 : getQuiz (setQuiz s.quizzes quiz_id (submittedQuiz now1 quiz answers))
      quiz_id = some (submittedQuiz now1 quiz answers) :=
    getQuiz_setQuiz s.quizzes quiz_id (submittedQuiz now1 quiz answers)
  have e2 := submit_quiz_found now2
    { quizzes := setQuiz s.quizzes quiz_id (submittedQuiz now1 quiz answers)
      progress := update_progress now1 s.progress (submittedQuiz now1 quiz answers) }
    quiz_id answers (submittedQuiz now1 quiz answers) h2
  refine ⟨_, _, _, _, e1, e2, rfl, rfl,
    ⟨submittedQuiz now2 (submittedQuiz now1 quiz answers) answers,
      getQuiz_setQuiz _ _ _, rfl, rfl, rfl, rfl, rfl⟩, ?_, ?_, ?_, ?_⟩
  · show s.progress.total_quizzes + 1 + 1 = s.progress.total_quizzes + 2
    omega
  · show s.progress.total_questions_attempted + quiz.questions.length +
      quiz.questions.length =
        s.progress.total_questions_attempted + 2 * quiz.questions.length
    omega
  · show (s.progress.scores ++
        [computeScore (gradeQuestions quiz.questions answers).1 quiz.questions]) ++
      [computeScore (gradeQuestions quiz.questions answers).1 quiz.questions] = _
    rw [List.append_assoc]
    rfl
  · show topicTotalSum ((gradeQuestions quiz.questions answers).2.foldl
        (fun tp r => bumpTopic tp r.2.topic r.2.correct)
        ((gradeQuestions quiz.questions answers).2.foldl
          (fun tp r => bumpTopic tp r.2.topic r.2.correct)
          s.progress.topic_performance)) =
      topicTotalSum s.progress.topic_performance + 2 * quiz.questions.length
    rw [topicTotalSum_fold, topicTotalSum_fold, gradeQuestions_snd_length]
    omega

/-- Witness for C9: resubmitting the demo quiz succeeds, overwrites the
stored record and double-counts the demo store's progress totals. -/
theorem resubmission_spec_witness :
    ∃ r1 s1 r2 s2,
      submit_quiz "2026-01-02T00:00:00" demoStore "quiz-1" demoAns =
        (Except.ok r1, s1) ∧
      submit_quiz "2026-01-03T00:00:00" s1 "quiz-1" demoAns =
        (Except.ok r2, s2) ∧
      r2.score = r1.score ∧ r2.results = r1.results ∧
      (∃ quiz2, getQuiz s2.quizzes "quiz-1" = some quiz2 ∧
        quiz2.submitted = true ∧ quiz2.score = some r2.score ∧
        quiz2.answers = some demoAns ∧ quiz2.results = some r2.results ∧
        quiz2.submitted_at = some "2026-01-03T00:00:00") ∧
      s2.progress.total_quizzes = demoStore.progress.total_quizzes + 2 ∧
      s2.progress.total_questions_attempted =
        demoStore.progress.total_questions_attempted +
          2 * demoQuiz.questions.length ∧
      s2.progress.scores = demoStore.progress.scores ++ [r1.score, r2.score] ∧
      topicTotalSum s2.progress.topic_performance =
        topicTotalSum demoStore.progress.topic_performance +
          2 * demoQuiz.questions.length :=
  resubmission_spec "2026-01-02T00:00:00" "2026-01-03T00:00:00" demoStore
    "quiz-1" demoAns demoQuiz (by decide)
